import Mathlib

/-!
# Verification of the CricValue valuation engine (`src/app.py`)

Shallow embedding of the valuation engine of the repository: the function
`calculate_vals(df, selected_year)` of `src/app.py` together with its inner
helpers `get_price`, `get_role` and the `team_map` dictionary.

Modelling conventions:
* a pandas dataframe of deliveries is a `List Delivery`; one `Delivery` is one
  row of the ball-by-ball CSV with the columns the engine reads;
* Python floats are modelled as rationals (`ℚ`); the decimal literals of the
  source are written as exact fractions (`1.25 = 5/4`, `0.045 = 9/200`,
  `0.4 = 2/5`, `0.10 = 1/10`, `0.045`, `9.0 = 9`);
* `df[year]` is `Option Nat`: `none` models an unparseable date
  (`pd.to_datetime(..., errors=coerce)` giving `NaT`), which every year
  comparison filters out, exactly as NaN comparisons are false in pandas;
* each derived column of the `merged` dataframe becomes a function of
  `(df, filt, player)`; the outer join with `fillna(0)` is reproduced by the
  fact that every aggregate of an absent player evaluates to `0`;
* `df.sort_values(date)` is modelled by a stable insertion sort on the date
  field (the tie order among equal dates is unspecified in the source, pandas
  uses an unstable quicksort; no property proved here depends on it);
* pandas `groupby` sorts group keys alphabetically; here group keys are kept
  in first-appearance order. Key order only influences which of two rows with
  equal `Market_Value` comes first in the final sorted output, which the
  source leaves unspecified as well;
* `rank(ascending=False)` is pandas default `method=average` rank:
  `(#strictly greater) + (#equal + 1)/2`;
* the truthiness of the Python test `if selected_year:` (both `None` and `0`
  are falsy) is modelled by `truthy`.
-/

/- The rational arithmetic of Batteries is marked irreducible, which blocks
kernel evaluation of the engine on concrete datasets; restore the default
reducibility so the translated engine stays fully evaluable. -/
set_option allowUnsafeReducibility true in
attribute [semireducible] Rat.add Rat.mul Rat.inv Rat.sub Rat.ofScientific

namespace CricVal

/-- One row of the delivery CSV, holding the columns `calculate_vals` reads:
`match_id`, `date`, the derived `year`, `batter`, `bowler`, `batting_team`,
`bowling_team`, `runs_off_bat`, `total_runs`, `is_wicket`. -/
structure Delivery where
  match_id : Nat
  date : Nat
  year : Option Nat
  batter : String
  bowler : String
  batting_team : String
  bowling_team : String
  runs_off_bat : Nat
  total_runs : Nat
  is_wicket : Bool
deriving Repr, DecidableEq, Inhabited

/-- A delivery dataframe. -/
abbrev DF := List Delivery

/-- Python truthiness of `selected_year` (`if selected_year:`): `None` and `0`
are falsy. -/
def truthy : Option Nat → Bool
  | none => false
  | some y => y != 0

/-- `df_subset`: `df[df[year] == selected_year]` when a season is selected,
else `df[df[year] >= 2024]`. Rows with unparseable dates (`year = none`)
fail both comparisons, as NaN does in pandas. -/
def subsetOf (df : DF) (filt : Option Nat) : DF :=
  if truthy filt then
    df.filter (fun d => d.year == some (filt.getD 0))
  else
    df.filter (fun d => match d.year with
      | some y => decide (2024 ≤ y)
      | none => false)

/-- Group keys of a `groupby`, accumulated in first-appearance order. -/
def keys_from (f : Delivery → String) : List Delivery → List String → List String
  | [], acc => acc
  | d :: l, acc => keys_from f l (if f d ∈ acc then acc else acc ++ [f d])

/-- The group keys of `s.groupby(f)`. -/
def group_keys (f : Delivery → String) (s : DF) : List String :=
  keys_from f s []

/-- The players of the outer merge of the `bat` and `bowl` tables: every
player who batted or bowled in the filtered window. -/
def players_of (s : DF) : List String :=
  group_keys (fun d => d.batter) s ++
    (group_keys (fun d => d.bowler) s).filter
      (fun p => decide (p ∉ group_keys (fun d => d.batter) s))

/-- `bat[bat_runs]`: `df_subset.groupby(batter)` sum of `runs_off_bat`. -/
def bat_runs (s : DF) (p : String) : ℚ :=
  (((s.filter (fun d => d.batter == p)).map
    (fun d => ((d.runs_off_bat : ℚ)))).sum)

/-- `bat[bat_balls]`: count of deliveries faced. -/
def bat_balls (s : DF) (p : String) : ℚ :=
  (((s.filter (fun d => d.batter == p)).length : ℚ))

/-- `bat[sr] = (bat_runs / bat_balls.replace(0, 1)) * 100`. -/
def sr (s : DF) (p : String) : ℚ :=
  (bat_runs s p / (if bat_balls s p = 0 then 1 else bat_balls s p)) * 100

/-- `bat[bat_points] = bat_runs * ((sr/100)**2) / 1.25`. -/
def bat_points (s : DF) (p : String) : ℚ :=
  bat_runs s p * ((sr s p / 100) ^ 2) / (5 / 4)

/-- `bowl[bowl_wkts]`: `df_subset.groupby(bowler)` sum of `is_wicket`. -/
def bowl_wkts (s : DF) (p : String) : ℚ :=
  (((s.filter (fun d => d.bowler == p)).countP (fun d => d.is_wicket) : ℚ))

/-- `bowl[bowl_runs]`: sum of `total_runs` conceded. -/
def bowl_runs (s : DF) (p : String) : ℚ :=
  (((s.filter (fun d => d.bowler == p)).map
    (fun d => ((d.total_runs : ℚ)))).sum)

/-- `bowl[bowl_balls]`: count of deliveries bowled. -/
def bowl_balls (s : DF) (p : String) : ℚ :=
  (((s.filter (fun d => d.bowler == p)).length : ℚ))

/-- `bowl[eco] = (bowl_runs / bowl_balls.replace(0, 1)) * 6`. -/
def eco (s : DF) (p : String) : ℚ :=
  (bowl_runs s p / (if bowl_balls s p = 0 then 1 else bowl_balls s p)) * 6

/-- `bowl[bowl_points] = bowl_wkts * ((9.0/max(4, eco))**2) * 35 if
bowl_wkts > 0 else 0`. -/
def bowl_points (s : DF) (p : String) : ℚ :=
  if 0 < bowl_wkts s p then
    bowl_wkts s p * ((9 / max 4 (eco s p)) ^ 2) * 35
  else 0

/-- The distinct years (`groupby([year, batter])` level) in which `p`
batted within the window. -/
def years_of (s : DF) (p : String) : List Nat :=
  ((s.filter (fun d => d.batter == p)).filterMap (fun d => d.year)).dedup

/-- `match_id.nunique()` for a `(year, batter)` group. -/
def matches_in_year (s : DF) (p : String) (y : Nat) : Nat :=
  ((s.filter (fun d => d.batter == p && d.year == some y)).map
    (fun d => d.match_id)).dedup.length

/-- `availability[avg_matches]`: mean over years of the per-year distinct
match count of the batter. Empty mean (a player who never batted in the
window) is `0`, matching the left-join `fillna(0)`. -/
def avg_matches (s : DF) (p : String) : ℚ :=
  (((years_of s p).map (fun y => ((matches_in_year s p y : ℚ)))).sum) /
    (((years_of s p).length : ℚ))

/-- The distinct years present in the window. -/
def year_keys (s : DF) : List Nat :=
  (s.filterMap (fun d => d.year)).dedup

/-- `match_id.nunique()` of one year of the window. -/
def matches_total_in_year (s : DF) (y : Nat) : Nat :=
  ((s.filter (fun d => d.year == some y)).map (fun d => d.match_id)).dedup.length

/-- `max_matches = df_subset.groupby(year)[match_id].nunique().max()`. -/
def max_matches (s : DF) : ℚ :=
  ((((year_keys s).map (matches_total_in_year s)).foldl max 0 : ℕ))

/-- `availability[avail_score] = (avg_matches / max_matches).clip(upper=1.0)`. -/
def avail_score_base (s : DF) (p : String) : ℚ :=
  min 1 (avg_matches s p / max_matches s)

/-- `df.sort_values(date)` (stable; tie order unspecified in the source). -/
def sortByDate (l : DF) : DF :=
  List.insertionSort (fun a b => a.date ≤ b.date) l

/-- `last_team`: the last (by date) `batting_team` of the batting
deliveries of the player, overridden by the last `bowling_team` of their bowling deliveries
when they bowled (the bowling series comes last in the `pd.concat`, so
`groupby(level=0).last()` prefers it). -/
def last_team (df : DF) (p : String) : Option String :=
  match (((sortByDate df).filter (fun d => d.bowler == p)).map
      (fun d => d.bowling_team)).getLast? with
  | some t => some t
  | none => (((sortByDate df).filter (fun d => d.batter == p)).map
      (fun d => d.batting_team)).getLast?

/-- `last_active`: the max parseable year over all deliveries in which the
player batted or bowled, `2008` when there is none (the `fillna(2008)`). -/
def last_active (df : DF) (p : String) : Nat :=
  match (df.filter (fun d => d.batter == p || d.bowler == p)).filterMap
      (fun d => d.year) with
  | [] => 2008
  | ys => ys.foldl max 0

/-- The `avail_score` column of `merged`: the clipped availability, zeroed by
`np.where(last_active < latest_year, 0, avail_score)` in the
projected-value mode (`latest_year = 2025` there). -/
def avail_score (df : DF) (filt : Option Nat) (p : String) : ℚ :=
  if truthy filt then avail_score_base (subsetOf df filt) p
  else if last_active df p < 2025 then 0
  else avail_score_base (subsetOf df filt) p

/-- `perf_points = max(bat_points, bowl_points) + min(bat_points, bowl_points) * 0.4`. -/
def perf_points (s : DF) (p : String) : ℚ :=
  max (bat_points s p) (bowl_points s p) +
    min (bat_points s p) (bowl_points s p) * (2 / 5)

/-- `adjusted_score = perf_points * (1 + avail_score * 0.10)`. -/
def adjusted_score (df : DF) (filt : Option Nat) (p : String) : ℚ :=
  perf_points (subsetOf df filt) p * (1 + avail_score df filt p * (1 / 10))

/-- Pandas `rank(ascending=False)` with the default `method=average`:
`(#strictly greater) + ((#equal) + 1) / 2`. -/
def rank_in (l : List ℚ) (x : ℚ) : ℚ :=
  ((l.countP (fun t => decide (x < t)) : ℚ)) +
    (((l.countP (fun t => decide (t = x)) : ℚ)) + 1) / 2

/-- The `adjusted_score` column, over all rows of `merged`. -/
def all_adjusted (df : DF) (filt : Option Nat) : List ℚ :=
  (players_of (subsetOf df filt)).map (adjusted_score df filt)

/-- The `rank` column: rank of the `adjusted_score` of the player in the column. -/
def rank_of (df : DF) (filt : Option Nat) (p : String) : ℚ :=
  rank_in (all_adjusted df filt) (adjusted_score df filt p)

/-- `get_price` of `src/app.py`:
```
if rank <= 3: return 28.0 + (3-rank)
price = 35.0 / (1 + 0.045 * rank)
return min(35.0, price)
``` -/
def get_price (rank : ℚ) : ℚ :=
  if rank ≤ 3 then 28 + (3 - rank)
  else min 35 (35 / (1 + (9 / 200) * rank))

/-- `get_role` of `src/app.py`:
```
if bat_points > 50 and bowl_points > 50: return "All-Rounder"
if bat_points > bowl_points: return "Batter"
return "Bowler"
``` -/
def get_role (batPts bowlPts : ℚ) : String :=
  if 50 < batPts ∧ 50 < bowlPts then "All-Rounder"
  else if bowlPts < batPts then "Batter"
  else "Bowler"

/-- The `team_map` dictionary of `src/app.py`. -/
def team_map : List (String × String) :=
  [("Chennai Super Kings", "CSK"), ("Mumbai Indians", "MI"),
   ("Royal Challengers Bangalore", "RCB"), ("Royal Challengers Bengaluru", "RCB"),
   ("Kolkata Knight Riders", "KKR"), ("Sunrisers Hyderabad", "SRH"),
   ("Rajasthan Royals", "RR"), ("Delhi Capitals", "DC"),
   ("Delhi Daredevils", "DC"), ("Punjab Kings", "PBKS"),
   ("Kings XI Punjab", "PBKS"), ("Lucknow Super Giants", "LSG"),
   ("Gujarat Titans", "GT")]

/-- `merged[Team_Code] = merged[Team].map(team_map).fillna(merged[Team])`:
an unrecognized name is kept unchanged. -/
def team_code_of (t : String) : String :=
  (team_map.lookup t).getD t

/-- One row of the `merged` dataframe returned by `calculate_vals`. -/
structure Row where
  player : String
  bat_runs : ℚ
  bat_balls : ℚ
  sr : ℚ
  bat_points : ℚ
  bowl_wkts : ℚ
  bowl_runs : ℚ
  bowl_balls : ℚ
  eco : ℚ
  bowl_points : ℚ
  avg_matches : ℚ
  avail_score : ℚ
  Team : String
  last_active : Nat
  perf_points : ℚ
  adjusted_score : ℚ
  rank : ℚ
  Market_Value : ℚ
  Role : String
  Team_Code : String
deriving Repr, DecidableEq, Inhabited

/-- The row of `merged` for one player. -/
def mkRow (df : DF) (filt : Option Nat) (p : String) : Row :=
  { player := p
    bat_runs := bat_runs (subsetOf df filt) p
    bat_balls := bat_balls (subsetOf df filt) p
    sr := sr (subsetOf df filt) p
    bat_points := bat_points (subsetOf df filt) p
    bowl_wkts := bowl_wkts (subsetOf df filt) p
    bowl_runs := bowl_runs (subsetOf df filt) p
    bowl_balls := bowl_balls (subsetOf df filt) p
    eco := eco (subsetOf df filt) p
    bowl_points := bowl_points (subsetOf df filt) p
    avg_matches := avg_matches (subsetOf df filt) p
    avail_score := avail_score df filt p
    Team := (last_team df p).getD "Free Agent"
    last_active := last_active df p
    perf_points := perf_points (subsetOf df filt) p
    adjusted_score := adjusted_score df filt p
    rank := rank_of df filt p
    Market_Value := get_price (rank_of df filt p)
    Role := get_role (bat_points (subsetOf df filt) p) (bowl_points (subsetOf df filt) p)
    Team_Code := team_code_of ((last_team df p).getD "Free Agent") }

/-- The ordering of the final `merged.sort_values(Market_Value, ascending=False)`. -/
def valRel (a b : Row) : Prop :=
  b.Market_Value ≤ a.Market_Value

instance : DecidableRel valRel := fun a b =>
  inferInstanceAs (Decidable (b.Market_Value ≤ a.Market_Value))

instance : IsTotal Row valRel :=
  ⟨fun a b => le_total b.Market_Value a.Market_Value⟩

instance : IsTrans Row valRel :=
  ⟨fun _ _ _ h1 h2 => le_trans h2 h1⟩

/-- `calculate_vals(df, selected_year)` of `src/app.py`: empty input or an
empty filtered window give an empty dataframe; otherwise one row per player of
the outer-merged aggregates, sorted by `Market_Value` descending. -/
def calculate_vals (df : DF) (filt : Option Nat) : List Row :=
  if df.isEmpty then []
  else if (subsetOf df filt).isEmpty then []
  else List.insertionSort valRel ((players_of (subsetOf df filt)).map (mkRow df filt))

/-- `match_id.nunique()` of the batter group: the number of distinct matches
the player batted in within the window. -/
def distinct_bat_matches (s : DF) (p : String) : Nat :=
  ((s.filter (fun d => d.batter == p)).map (fun d => d.match_id)).dedup.length

/-! ## Concrete test datasets -/

/-- Helper building one delivery row. -/
def mkD (m dt : Nat) (y : Option Nat) (ba bo bt wt : String) (r tr : Nat)
    (w : Bool) : Delivery :=
  { match_id := m, date := dt, year := y, batter := ba, bowler := bo,
    batting_team := bt, bowling_team := wt, runs_off_bat := r, total_runs := tr,
    is_wicket := w }

/-- Four batters with pairwise distinct adjusted scores in one 2024 match;
their ranks are 1 to 4. -/
def exDfC1 : DF :=
  [mkD 1 1 (some 2024) "A" "B" "T" "T" 4 4 false,
   mkD 1 2 (some 2024) "B" "C" "T" "T" 3 3 false,
   mkD 1 3 (some 2024) "C" "D" "T" "T" 2 2 false,
   mkD 1 4 (some 2024) "D" "A" "T" "T" 1 1 false]

/-- A batter `P` with deliveries in exactly two distinct matches of 2024. -/
def exDC2a : Delivery :=
  mkD 1 1 (some 2024) "P" "Q" "Pune Warriors" "Delhi Daredevils" 6 6 false

/-- Second delivery of `P`, in another match. -/
def exDC2b : Delivery :=
  mkD 2 2 (some 2024) "P" "Q" "Pune Warriors" "Delhi Daredevils" 6 6 false

/-- Dataset in which `P` has only 2 distinct matches (below the claimed
minimum of 3). -/
def exDfC2 : DF := [exDC2a, exDC2b]

/-- A single 2024 delivery. -/
def exDfC4 : DF :=
  [mkD 1 1 (some 2024) "A" "B" "Chennai Super Kings" "Mumbai Indians" 4 4 false]

/-- The first output row for `exDfC4`. -/
def c4Row : Row := (calculate_vals exDfC4 (some 2024)).headI

/-- One delivery whose batting team name is not a key of `team_map`. -/
def exDfC5 : DF :=
  [mkD 1 1 (some 2024) "P" "Q" "Pune Warriors" "Delhi Daredevils" 4 4 false]

/-- The first output row for `exDfC5`. -/
def c5Row : Row := (calculate_vals exDfC5 (some 2024)).headI

/-- Scenario 1 dataset: one batter `A` facing 200 balls for 300 runs across
5 matches of 2024, never bowling. -/
def scenario1 : DF :=
  (List.range 200).map fun i =>
    mkD (i % 5) i (some 2024) "A" "B" "Chennai Super Kings" "Mumbai Indians"
      (if i % 2 = 0 then 3 else 0) 2 false

/-- Scenario 2 dataset: one bowler `C` bowling 120 balls, conceding 180 runs
and taking 10 wickets across 5 matches of 2024. -/
def scenario2 : DF :=
  (List.range 120).map fun i =>
    mkD (i % 5) i (some 2024) "D" "C" "X" "Y" 0 (if i < 60 then 3 else 0)
      (decide (i < 10))

/-- A dataset whose only delivery is from season 2020, so a 2019 filter
selects nothing. -/
def exDfC8 : DF := [mkD 1 1 (some 2020) "A" "B" "T" "T" 1 1 false]

/-- A single 2024 delivery. -/
def exDfC9 : DF := [mkD 1 1 (some 2024) "A" "B" "T" "T" 4 4 false]

/-- The first output row for `exDfC9`. -/
def c9Row : Row := (calculate_vals exDfC9 (some 2024)).headI

/-! ## Structural lemmas about the embedded pipeline -/

lemma subsetOf_nil (filt : Option Nat) : subsetOf [] filt = [] := by
  unfold subsetOf
  split <;> rfl

lemma mem_keys_from (f : Delivery → String) (l : List Delivery) :
    ∀ (acc : List String) (x : String),
      x ∈ keys_from f l acc ↔ x ∈ acc ∨ ∃ d ∈ l, f d = x := by
  induction l with
  | nil => intro acc x; simp [keys_from]
  | cons d l ih =>
    intro acc x
    rw [keys_from, ih]
    by_cases h : f d ∈ acc
    · rw [if_pos h]
      constructor
      · rintro (hx | ⟨e, he, hfe⟩)
        · exact Or.inl hx
        · exact Or.inr ⟨e, List.mem_cons_of_mem d he, hfe⟩
      · rintro (hx | ⟨e, he, hfe⟩)
        · exact Or.inl hx
        · rcases List.mem_cons.mp he with he | he
          · subst he; exact Or.inl (hfe ▸ h)
          · exact Or.inr ⟨e, he, hfe⟩
    · rw [if_neg h]
      constructor
      · rintro (hx | ⟨e, he, hfe⟩)
        · rcases List.mem_append.mp hx with hx | hx
          · exact Or.inl hx
          · exact Or.inr ⟨d, List.mem_cons_self d l, (List.mem_singleton.mp hx).symm⟩
        · exact Or.inr ⟨e, List.mem_cons_of_mem d he, hfe⟩
      · rintro (hx | ⟨e, he, hfe⟩)
        · exact Or.inl (List.mem_append.mpr (Or.inl hx))
        · rcases List.mem_cons.mp he with he | he
          · subst he
            exact Or.inl (List.mem_append.mpr (Or.inr (List.mem_singleton.mpr hfe.symm)))
          · exact Or.inr ⟨e, he, hfe⟩

lemma mem_group_keys {f : Delivery → String} {s : DF} {x : String} :
    x ∈ group_keys f s ↔ ∃ d ∈ s, f d = x := by
  unfold group_keys
  rw [mem_keys_from]
  simp

lemma mem_players_of {s : DF} {p : String} :
    p ∈ players_of s ↔ (∃ d ∈ s, d.batter = p) ∨ ∃ d ∈ s, d.bowler = p := by
  unfold players_of
  constructor
  · intro h
    rcases List.mem_append.mp h with h | h
    · exact Or.inl (mem_group_keys.mp h)
    · exact Or.inr (mem_group_keys.mp (List.mem_filter.mp h).1)
  · intro h
    by_cases hb : ∃ d ∈ s, d.batter = p
    · exact List.mem_append.mpr (Or.inl (mem_group_keys.mpr hb))
    · rcases h with h | h
      · exact absurd h hb
      · refine List.mem_append.mpr (Or.inr (List.mem_filter.mpr ⟨mem_group_keys.mpr h, ?_⟩))
        rw [decide_eq_true_eq]
        rw [mem_group_keys]
        exact hb

lemma mem_calculate_vals {df : DF} {filt : Option Nat} {row : Row} :
    row ∈ calculate_vals df filt ↔
      subsetOf df filt ≠ [] ∧
        ∃ p ∈ players_of (subsetOf df filt), row = mkRow df filt p := by
  unfold calculate_vals
  split
  · next h =>
    rw [List.isEmpty_iff] at h
    simp [h, subsetOf_nil]
  · next h =>
    split
    · next h2 =>
      rw [List.isEmpty_iff] at h2
      simp [h2]
    · next h2 =>
      rw [List.isEmpty_iff] at h2
      rw [List.mem_insertionSort, List.mem_map]
      simp only [ne_eq, h2, not_false_eq_true, true_and]
      exact ⟨fun ⟨p, hp, he⟩ => ⟨p, hp, he.symm⟩, fun ⟨p, hp, he⟩ => ⟨p, hp, he.symm⟩⟩

lemma one_le_rank_in {l : List ℚ} {x : ℚ} (h : x ∈ l) : 1 ≤ rank_in l x := by
  unfold rank_in
  have h1 : 0 < l.countP (fun t => decide (t = x)) :=
    List.countP_pos_iff.mpr ⟨x, h, by simp⟩
  have h2 : (1 : ℚ) ≤ ((l.countP (fun t => decide (t = x)) : ℚ)) := by exact_mod_cast h1
  have h3 : (0 : ℚ) ≤ ((l.countP (fun t => decide (x < t)) : ℚ)) := by positivity
  linarith

lemma get_price_bounds {r : ℚ} (h : 1 ≤ r) : 0 ≤ get_price r ∧ get_price r ≤ 35 := by
  unfold get_price
  split
  · next h3 => constructor <;> linarith
  · next h3 =>
    push_neg at h3
    have hd : (0 : ℚ) < 1 + (9 / 200) * r := by nlinarith
    exact ⟨le_min (by norm_num) (div_nonneg (by norm_num) hd.le), min_le_left _ _⟩

lemma bat_runs_nonneg (s : DF) (p : String) : 0 ≤ bat_runs s p := by
  unfold bat_runs
  apply List.sum_nonneg
  intro x hx
  obtain ⟨d, _, rfl⟩ := List.mem_map.mp hx
  positivity

lemma bat_points_nonneg (s : DF) (p : String) : 0 ≤ bat_points s p := by
  unfold bat_points
  exact div_nonneg (mul_nonneg (bat_runs_nonneg s p) (sq_nonneg _)) (by norm_num)

lemma bowl_points_nonneg (s : DF) (p : String) : 0 ≤ bowl_points s p := by
  unfold bowl_points
  split
  · next h => exact mul_nonneg (mul_nonneg h.le (sq_nonneg _)) (by norm_num)
  · exact le_refl 0

lemma perf_points_nonneg (s : DF) (p : String) : 0 ≤ perf_points s p := by
  unfold perf_points
  have h1 := bat_points_nonneg s p
  have h2 := bowl_points_nonneg s p
  have h3 : (0 : ℚ) ≤ max (bat_points s p) (bowl_points s p) :=
    le_trans h1 (le_max_left _ _)
  have h4 : (0 : ℚ) ≤ min (bat_points s p) (bowl_points s p) := le_min h1 h2
  have h5 := mul_nonneg h4 (by norm_num : (0 : ℚ) ≤ 2 / 5)
  linarith

lemma avg_matches_nonneg (s : DF) (p : String) : 0 ≤ avg_matches s p := by
  unfold avg_matches
  apply div_nonneg
  · apply List.sum_nonneg
    intro x hx
    obtain ⟨y, _, rfl⟩ := List.mem_map.mp hx
    positivity
  · positivity

lemma max_matches_nonneg (s : DF) : 0 ≤ max_matches s := by
  unfold max_matches
  positivity

lemma avail_score_base_bounds (s : DF) (p : String) :
    0 ≤ avail_score_base s p ∧ avail_score_base s p ≤ 1 := by
  unfold avail_score_base
  exact ⟨le_min (by norm_num)
      (div_nonneg (avg_matches_nonneg s p) (max_matches_nonneg s)),
    min_le_left _ _⟩

lemma avail_score_bounds (df : DF) (filt : Option Nat) (p : String) :
    0 ≤ avail_score df filt p ∧ avail_score df filt p ≤ 1 := by
  unfold avail_score
  split
  · exact avail_score_base_bounds _ _
  · split
    · norm_num
    · exact avail_score_base_bounds _ _

/-! ## Claims -/

/-- C1: the claim states that rank-decay pricing is monotonically
non-increasing in rank (smaller rank never gets a smaller value). The code
violates this at ranks 3 and 4: `get_price 3 = 28` but
`get_price 4 = 35/(1+0.045*4) = 1750/59 > 29.6`, and on a four-player dataset
the produced table shows the rank-4 player valued above the rank-2 and rank-3
players. -/
theorem c1_rank_decay_not_monotone :
    get_price 3 = 28 ∧ get_price 4 = 1750 / 59 ∧ get_price 3 < get_price 4 ∧
      (calculate_vals exDfC1 (some 2024)).map (fun r => (r.rank, r.Market_Value)) =
        [(1, 30), (4, 1750 / 59), (2, 29), (3, 28)] := by
  decide

/-- C2 counterexample: a player with only 2 distinct matches in the filtered
window (below the claimed minimum of 3) nevertheless appears in the output
valuation table, refuting the claimed minimum-sample exclusion. -/
theorem c2_below_threshold_player_included :
    distinct_bat_matches (subsetOf exDfC2 (some 2024)) "P" = 2 ∧
      "P" ∈ (calculate_vals exDfC2 (some 2024)).map Row.player := by
  decide

/-- C2 (amended): no minimum-matches filter is applied by the code: every
player appearing as batter or bowler in at least one delivery of the filtered
window has a row in the output valuation table, regardless of the number of
distinct matches. -/
theorem c2_no_min_matches_filter (df : DF) (filt : Option Nat) (d : Delivery)
    (h : d ∈ subsetOf df filt) :
    (∃ row ∈ calculate_vals df filt, row.player = d.batter) ∧
      ∃ row ∈ calculate_vals df filt, row.player = d.bowler := by
  have hne : subsetOf df filt ≠ [] := fun he => by
    rw [he] at h
    exact (List.not_mem_nil d) h
  exact ⟨⟨mkRow df filt d.batter,
      mem_calculate_vals.mpr ⟨hne, d.batter, mem_players_of.mpr (Or.inl ⟨d, h, rfl⟩), rfl⟩, rfl⟩,
    ⟨mkRow df filt d.bowler,
      mem_calculate_vals.mpr ⟨hne, d.bowler, mem_players_of.mpr (Or.inr ⟨d, h, rfl⟩), rfl⟩, rfl⟩⟩

/-- Witness for C2 (amended) at a concrete input. -/
theorem c2_no_min_matches_filter_witness :
    (∃ row ∈ calculate_vals exDfC2 (some 2024), row.player = "P") ∧
      ∃ row ∈ calculate_vals exDfC2 (some 2024), row.player = "Q" :=
  c2_no_min_matches_filter exDfC2 (some 2024) exDC2a (by decide)

/-- C3 counterexample: the claim says rank 11 is priced
`30/(1+0.04*10) ≈ 21.43`; the code prices rank 11 at `35/(1+0.045*11)`,
which differs from the claimed formula and does not lie within
`[21.42, 21.44]`. -/
theorem c3_rank11_value_not_21_43 :
    get_price 11 ≠ 30 / (1 + (1 / 25) * 10) ∧
      ¬(2142 / 100 ≤ get_price 11 ∧ get_price 11 ≤ 2144 / 100) := by
  decide

/-- C3 (amended): rank 1 is priced exactly 30.0 (`28 + (3-1)`), and rank 11
is priced `35/(1+0.045*11) = 7000/299 ≈ 23.41`. -/
theorem c3_prices_at_rank_1_and_11 :
    get_price 1 = 30 ∧ get_price 11 = 7000 / 299 := by
  decide

/-- C4: every monetary value of the produced valuation table lies within
`[0, 35]`, where 35.0 is the ceiling the pricing code clamps to
(`min(35.0, price)`). -/
theorem c4_market_value_in_range (df : DF) (filt : Option Nat) (row : Row)
    (h : row ∈ calculate_vals df filt) :
    0 ≤ row.Market_Value ∧ row.Market_Value ≤ 35 := by
  obtain ⟨hne, p, hp, rfl⟩ := mem_calculate_vals.mp h
  have hmem : adjusted_score df filt p ∈ all_adjusted df filt :=
    List.mem_map_of_mem _ hp
  have h1 : 1 ≤ rank_of df filt p := one_le_rank_in hmem
  exact get_price_bounds h1

/-- Witness for C4 at a concrete input. -/
theorem c4_market_value_in_range_witness :
    0 ≤ c4Row.Market_Value ∧ c4Row.Market_Value ≤ 35 :=
  c4_market_value_in_range exDfC4 (some 2024) c4Row (by decide)

/-- C5 counterexample: `team_map` has no key "Pune Warriors", yet the output
keeps "Pune Warriors" as the team code of that player instead of mapping it
to "Free Agent"; no "Free Agent" appears in the output. -/
theorem c5_unrecognized_team_kept :
    team_map.lookup "Pune Warriors" = none ∧
      (calculate_vals exDfC5 (some 2024)).map Row.Team_Code =
        ["Pune Warriors", "DC"] ∧
      "Free Agent" ∉ (calculate_vals exDfC5 (some 2024)).map Row.Team_Code := by
  decide

/-- C5 (amended): each row carries the last-observed team of the player
(defaulting to "Free Agent" only when the player has no observed team at
all), and the team code is the `team_map` image of that team name when the
name is a key of the map, and the unchanged team name otherwise. -/
theorem c5_team_attribution (df : DF) (filt : Option Nat) (row : Row)
    (h : row ∈ calculate_vals df filt) :
    row.Team = (last_team df row.player).getD "Free Agent" ∧
      row.Team_Code = (team_map.lookup row.Team).getD row.Team := by
  obtain ⟨hne, p, hp, rfl⟩ := mem_calculate_vals.mp h
  exact ⟨rfl, rfl⟩

/-- Witness for C5 (amended) at a concrete input. -/
theorem c5_team_attribution_witness :
    c5Row.Team = (last_team exDfC5 c5Row.player).getD "Free Agent" ∧
      c5Row.Team_Code = (team_map.lookup c5Row.Team).getD c5Row.Team :=
  c5_team_attribution exDfC5 (some 2024) c5Row (by decide)

/-- C6: a player with 300 runs off 200 balls in the filtered window and no
bowling record appears in the output with bowling score 0, role "Batter",
and batting points exactly `300*(1.5)^2/1.25 = 540`. -/
theorem c6_batter_scenario (df : DF) (filt : Option Nat) (p : String)
    (h1 : bat_runs (subsetOf df filt) p = 300)
    (h2 : bat_balls (subsetOf df filt) p = 200)
    (h3 : bowl_balls (subsetOf df filt) p = 0)
    (h4 : ∃ d ∈ subsetOf df filt, d.batter = p) :
    ∃ row ∈ calculate_vals df filt,
      row.player = p ∧ row.bowl_points = 0 ∧ row.Role = "Batter" ∧
        row.bat_points = 540 := by
  obtain ⟨d, hd, hdb⟩ := h4
  have hne : subsetOf df filt ≠ [] := fun he => by
    rw [he] at hd
    exact (List.not_mem_nil d) hd
  have hp : p ∈ players_of (subsetOf df filt) :=
    mem_players_of.mpr (Or.inl ⟨d, hd, hdb⟩)
  have hlen : ((subsetOf df filt).filter (fun e => e.bowler == p)).length = 0 := by
    have h3c := h3
    unfold bowl_balls at h3c
    exact_mod_cast h3c
  have hfil : (subsetOf df filt).filter (fun e => e.bowler == p) = [] :=
    List.length_eq_zero.mp hlen
  have hwkts : bowl_wkts (subsetOf df filt) p = 0 := by
    unfold bowl_wkts
    rw [hfil]
    simp
  have hbp : bowl_points (subsetOf df filt) p = 0 := by
    unfold bowl_points
    rw [hwkts]
    norm_num
  have hsr : sr (subsetOf df filt) p = 150 := by
    unfold sr
    rw [h1, h2, if_neg (by norm_num : ¬(200 : ℚ) = 0)]
    norm_num
  have hbatp : bat_points (subsetOf df filt) p = 540 := by
    unfold bat_points
    rw [h1, hsr]
    norm_num
  have hrole : get_role (bat_points (subsetOf df filt) p)
      (bowl_points (subsetOf df filt) p) = "Batter" := by
    rw [hbatp, hbp]
    unfold get_role
    rw [if_neg (by norm_num), if_pos (by norm_num)]
  exact ⟨mkRow df filt p, mem_calculate_vals.mpr ⟨hne, p, hp, rfl⟩, rfl, hbp, hrole, hbatp⟩

set_option maxRecDepth 100000 in
/-- Witness for C6 on the 200-delivery scenario dataset. -/
theorem c6_batter_scenario_witness :
    ∃ row ∈ calculate_vals scenario1 (some 2024),
      row.player = "A" ∧ row.bowl_points = 0 ∧ row.Role = "Batter" ∧
        row.bat_points = 540 :=
  c6_batter_scenario scenario1 (some 2024) "A" (by decide) (by decide)
    (by decide) (by decide)

/-- C7: a bowler with 10 wickets, 180 runs conceded and 120 balls bowled in
the filtered window receives economy `180/120*6 = 9.0` and bowling points
`10*(9/max(4,9))^2*35 = 350`. -/
theorem c7_bowler_scenario (df : DF) (filt : Option Nat) (p : String)
    (hw : bowl_wkts (subsetOf df filt) p = 10)
    (hr : bowl_runs (subsetOf df filt) p = 180)
    (hb : bowl_balls (subsetOf df filt) p = 120)
    (hmem : ∃ d ∈ subsetOf df filt, d.bowler = p) :
    ∃ row ∈ calculate_vals df filt,
      row.player = p ∧ row.eco = 9 ∧ row.bowl_points = 350 := by
  obtain ⟨d, hd, hdb⟩ := hmem
  have hne : subsetOf df filt ≠ [] := fun he => by
    rw [he] at hd
    exact (List.not_mem_nil d) hd
  have hp : p ∈ players_of (subsetOf df filt) :=
    mem_players_of.mpr (Or.inr ⟨d, hd, hdb⟩)
  have heco : eco (subsetOf df filt) p = 9 := by
    unfold eco
    rw [hr, hb, if_neg (by norm_num : ¬(120 : ℚ) = 0)]
    norm_num
  have hbp : bowl_points (subsetOf df filt) p = 350 := by
    unfold bowl_points
    rw [hw, heco, if_pos (by norm_num : (0 : ℚ) < 10),
      max_eq_right (by norm_num : (4 : ℚ) ≤ 9)]
    norm_num
  exact ⟨mkRow df filt p, mem_calculate_vals.mpr ⟨hne, p, hp, rfl⟩, rfl, heco, hbp⟩

set_option maxRecDepth 100000 in
/-- Witness for C7 on the 120-delivery scenario dataset. -/
theorem c7_bowler_scenario_witness :
    ∃ row ∈ calculate_vals scenario2 (some 2024),
      row.player = "C" ∧ row.eco = 9 ∧ row.bowl_points = 350 :=
  c7_bowler_scenario scenario2 (some 2024) "C" (by decide) (by decide)
    (by decide) (by decide)

/-- C8: an empty input dataset, or a season filter selecting zero deliveries,
produces an empty valuation table rather than an error. -/
theorem c8_empty_input_empty_output (df : DF) (filt : Option Nat)
    (h : df = [] ∨ subsetOf df filt = []) : calculate_vals df filt = [] := by
  have hs : subsetOf df filt = [] := by
    rcases h with h | h
    · rw [h]
      exact subsetOf_nil filt
    · exact h
  unfold calculate_vals
  rcases df with _ | ⟨a, l⟩
  · rfl
  · rw [if_neg (by simp), if_pos (by simp [hs])]

/-- Witness for C8: filtering a dataset of season 2020 by season 2019. -/
theorem c8_empty_input_empty_output_witness :
    calculate_vals exDfC8 (some 2019) = [] :=
  c8_empty_input_empty_output exDfC8 (some 2019) (Or.inr (by decide))

/-- C9: the score used for ranking equals the raw combined points multiplied
by `1 + 0.10 * avail_score` with `avail_score` in `[0, 1]`, hence it lies
between 1.0 and 1.1 times the raw combined points. -/
theorem c9_availability_adjustment (df : DF) (filt : Option Nat) (row : Row)
    (h : row ∈ calculate_vals df filt) :
    row.adjusted_score = row.perf_points * (1 + row.avail_score * (1 / 10)) ∧
      0 ≤ row.avail_score ∧ row.avail_score ≤ 1 ∧
      row.perf_points ≤ row.adjusted_score ∧
      row.adjusted_score ≤ (11 / 10) * row.perf_points := by
  obtain ⟨hne, p, hp, rfl⟩ := mem_calculate_vals.mp h
  have ha := avail_score_bounds df filt p
  have hperf := perf_points_nonneg (subsetOf df filt) p
  refine ⟨rfl, ha.1, ha.2, ?_, ?_⟩
  · show perf_points (subsetOf df filt) p ≤ adjusted_score df filt p
    unfold adjusted_score
    nlinarith [mul_nonneg hperf ha.1]
  · show adjusted_score df filt p ≤ (11 / 10) * perf_points (subsetOf df filt) p
    unfold adjusted_score
    nlinarith [mul_nonneg hperf (sub_nonneg.mpr ha.2)]

/-- Witness for C9 at a concrete input. -/
theorem c9_availability_adjustment_witness :
    c9Row.adjusted_score = c9Row.perf_points * (1 + c9Row.avail_score * (1 / 10)) ∧
      0 ≤ c9Row.avail_score ∧ c9Row.avail_score ≤ 1 ∧
      c9Row.perf_points ≤ c9Row.adjusted_score ∧
      c9Row.adjusted_score ≤ (11 / 10) * c9Row.perf_points :=
  c9_availability_adjustment exDfC9 (some 2024) c9Row (by decide)

/-- C10: the valuation table returned by the engine is always sorted by
monetary value in non-increasing order. -/
theorem c10_output_sorted_by_value (df : DF) (filt : Option Nat) :
    (calculate_vals df filt).Pairwise (fun a b => b.Market_Value ≤ a.Market_Value) := by
  unfold calculate_vals
  split
  · exact List.Pairwise.nil
  · split
    · exact List.Pairwise.nil
    · exact List.sorted_insertionSort valRel _

end CricVal
